import Mathlib

/-!
Verification development for the pydantic-cli library
(schema-to-parser compiler and execution pipeline).

The Python source is shallowly embedded: pure functions of
`pydantic_cli/core.py`, `pydantic_cli/__init__.py`, `pydantic_cli/argparse.py`
and `pydantic_cli/utils.py` become Lean functions.  Side effects are made
explicit: the process environment is a function `String → Option String`,
the file system is a pair of functions (`pathExists`, `fs`), and fallible
Python code returns `Except Exc α` where `Exc` mirrors the exception
taxonomy the library relies on.

The external collaborators are modelled at the interface granularity the
source consumes them:

* pydantic (v1): a model class is a list of named field descriptors
  (`ModelField` mirrors the parts of `pydantic.fields.ModelField` the
  source reads: `required`, `allow_none`, `default`, `type_ == bool`,
  shape, enum choices, `field_info.extra["extras"]["cli"]`) plus the
  class-attribute `Config` mixin (`ModelConfigAttrs`).  Model
  construction/validation stay abstract parameters of the runner.
* argparse: flag registrations are reified as `ArgSpec`/`ParserEntry`
  values, and `parseKnownArgsModel`/`parseArgsModel` model the parts of
  argparse's `parse_known_args`/`parse_args` semantics the library
  exercises (left-to-right option scan, one-value `store` actions,
  zero-value `store_true`/`store_false`, `nargs="+"` lists, `type=`
  converters also applied to string defaults, choices, mutually exclusive
  groups, required checks, unrecognized-argument collection, and
  `parser.error(...)` ending in `CustomArgumentParser.exit(2, ...)`, which
  the source turns into `FailedExecutionException(2)`).
-/

/-- Python values as they appear in this pipeline: the `...` (Ellipsis)
sentinel `NOT_PROVIDED`, `None`, booleans, strings, integers, and lists of
strings (what an `nargs="+"` argparse action stores).  Floats and nested
JSON structures are not needed by any claim and are omitted. -/
inductive PyVal where
  | undef
  | null
  | bool (b : Bool)
  | str (s : String)
  | int (n : Int)
  | strList (xs : List String)
  deriving Repr, DecidableEq

/-- Exception taxonomy used by the source.  `terminalEager` is
`TerminalEagerCommand`, `failedExecution` is `FailedExecutionException`
(carrying its exit code), `valueError` covers the `ValueError`s raised
during parser construction, `ioError` the `IOError` of `_resolve_file`,
`validationError` a pydantic validation failure, `generic` any other
`Exception`, and `systemExit` a `BaseException` that is *not* an
`Exception` (e.g. `SystemExit`, `KeyboardInterrupt`). -/
inductive Exc where
  | terminalEager
  | failedExecution (exitCode : Int)
  | valueError
  | ioError
  | validationError
  | generic
  | systemExit (code : Int)
  deriving Repr, DecidableEq

/-- Whether `except Exception` catches the raised object: everything in
Python's `Exception` hierarchy, but not `SystemExit`/`KeyboardInterrupt`. -/
def Exc.isCatchable : Exc → Bool
  | .systemExit _ => false
  | _ => true

/-- Argparse action kinds used by the source: plain `store`, the
zero-arity boolean stores, `nargs="+"` list store, and the two custom
eager actions (`EagerHelpAction`, `EagerVersionAction`). -/
inductive ArgAction where
  | store
  | storeTrue
  | storeFalse
  | storeList
  | eagerHelp
  | eagerVersion
  deriving Repr, DecidableEq

/-- One argparse argument registration (one `add_argument` call).
`conv` records a `type=` converter: `some true` is `_resolve_file`
(strict), `some false` is `_resolve_file_or_none_and_warn`. -/
structure ArgSpec where
  flags : List String
  dest : String
  default : PyVal := .undef
  required : Bool := false
  action : ArgAction := .store
  choices : Option (List String) := none
  conv : Option Bool := none
  deriving Repr, DecidableEq

/-- A parser is a sequence of plain arguments and mutually exclusive
groups (`add_mutually_exclusive_group(required=...)` with its member
arguments). -/
inductive ParserEntry where
  | arg (a : ArgSpec)
  | group (required : Bool) (members : List ArgSpec)
  deriving Repr, DecidableEq

abbrev ArgParser := List ParserEntry

/-- The parts of `pydantic.fields.ModelField` (pydantic v1) the source
reads.  `isBoolType` is `field.type_ == bool`, `isSeqShape` is
`field.shape in {SHAPE_LIST, SHAPE_SET}`, `enumChoices` is
`[x.value for x in field.type_.__members__.values()]` when `field.type_`
is an Enum, and `cliExtras` is `field.field_info.extra["extras"]["cli"]`
(absent key modelled as `none`). -/
structure ModelField where
  required : Bool := false
  allowNone : Bool := false
  default : PyVal := .null
  isBoolType : Bool := false
  isSeqShape : Bool := false
  enumChoices : Option (List String) := none
  cliExtras : Option (List String) := none
  deriving Repr, DecidableEq

/-- The class-attribute `Config` mixin of a model: each `CLI_*` attribute
is either set on the class (`some`) or absent (`none`, in which case
`_get_cli_config_from_model` falls back to `DEFAULT_CLI_CONFIG`).
`CLI_BOOL_PFX` stands for the source's boolean-prefix pair attribute. -/
structure ModelConfigAttrs where
  CLI_JSON_KEY : Option String := none
  CLI_JSON_ENABLE : Option Bool := none
  CLI_JSON_CONFIG_ENV_VAR : Option String := none
  CLI_JSON_CONFIG_PATH : Option (Option String) := none
  CLI_JSON_VALIDATE_PATH : Option Bool := none
  CLI_EXTRA_OPTIONS : Option (List (String × List String)) := none
  CLI_BOOL_PFX : Option (String × String) := none
  CLI_SHELL_COMPLETION_ENABLE : Option Bool := none
  deriving Repr, DecidableEq

/-- A pydantic model class as consumed by the library: its ordered fields
(`cls.__fields__.items()`) and its `Config` attributes.  The field names
are also `cls.schema()["properties"].keys()`. -/
structure ModelClass where
  fields : List (String × ModelField)
  config : ModelConfigAttrs := {}
  deriving Repr, DecidableEq

/-- Internal `CliConfig` model from `core.py`, with the defaults of
`DefaultConfig`/`DEFAULT_CLI_CONFIG`.  `boolPfx` is the source's
boolean-prefix pair (`CLI_BOOL_PREFIX` attribute, default
`("--enable-", "--disable-")`). -/
structure CliConfig where
  jsonConfigKey : String := "json-config"
  jsonConfigEnable : Bool := false
  jsonConfigEnvVar : String := "PCLI_JSON_CONFIG"
  jsonConfigPath : Option String := none
  jsonConfigPathValidate : Bool := true
  boolPfx : String × String := ("--enable-", "--disable-")
  customOpts : List (String × List String) := []
  shellCompletionEnable : Bool := false
  deriving Repr, DecidableEq

/-- Embedding of `CliConfig.json_config_key_sanitized`: argparse derives
the namespace attribute from the flag by replacing `-` with `_`
(`self.json_config_key.replace("-", "_")`, a single-character pattern). -/
def jsonConfigKeySanitized (c : CliConfig) : String :=
  ⟨c.jsonConfigKey.data.map (fun ch => if ch = '-' then '_' else ch)⟩

/-- Embedding of `core._get_cli_config_from_model`.  `env` is
`os.environ.get`.  The env var overrides the default path set in the
model `Config`, and the command line later overrides the env var (the
resolved `path` only becomes the *default* of the `--json-config` flag). -/
def getCliConfigFromModel (cls : ModelClass) (env : String → Option String) : CliConfig :=
  let c := cls.config
  let enableJsonConfig := c.CLI_JSON_ENABLE.getD false
  let jsonKeyFieldName := c.CLI_JSON_KEY.getD "json-config"
  let jsonConfigEnvVar := c.CLI_JSON_CONFIG_ENV_VAR.getD "PCLI_JSON_CONFIG"
  let jsonConfigPath := c.CLI_JSON_CONFIG_PATH.getD none
  let jsonConfigValidatePath := c.CLI_JSON_VALIDATE_PATH.getD true
  let path : Option String :=
    match env jsonConfigEnvVar with
    | some v => some v
    | none => jsonConfigPath
  { jsonConfigEnable := enableJsonConfig
    jsonConfigKey := jsonKeyFieldName
    jsonConfigEnvVar := jsonConfigEnvVar
    jsonConfigPath := path
    jsonConfigPathValidate := jsonConfigValidatePath
    boolPfx := c.CLI_BOOL_PFX.getD ("--enable-", "--disable-")
    customOpts := c.CLI_EXTRA_OPTIONS.getD []
    shellCompletionEnable := c.CLI_SHELL_COMPLETION_ENABLE.getD false }

/-- Embedding of `__process_tuple`: a 1-tuple whose token has exactly two
characters (a short flag such as `-s`) is completed with the long form; a
1-tuple with any other token is kept alone; a 2-tuple is used verbatim;
anything else raises `ValueError`. -/
def processTuple (tupleOneOrTwo : List String) (longArg : String) : Except Exc (List String) :=
  match tupleOneOrTwo with
  | [first] => if first.length = 2 then .ok [first, longArg] else .ok [first]
  | [a, b] => .ok [a, b]
  | _ => .error .valueError

/-- Embedding of `__add_boolean_arg_negate_to_parser`: a single argument
whose action negates the default (`dx[not default_value]`, so default
`True` gives `store_false` and default `False` gives `store_true`); the
argument itself is optional (no `required=` is passed). -/
def addBooleanArgNegateToParser (parser : ArgParser) (fieldId : String)
    (cliCustom : List String) (defaultValue : PyVal) : ArgParser :=
  parser ++ [.arg { flags := cliCustom, dest := fieldId, default := defaultValue,
                    required := false,
                    action := if defaultValue = .bool true then .storeFalse else .storeTrue }]

/-- Embedding of `__add_boolean_arg_to_parser`: with a 2-tuple of custom
flags, build a mutually exclusive group (required iff the field is), zip
the flags with `[(True, store_true), (False, store_false)]`, and register
only the members whose stored boolean differs from the default; each
member is registered optional (the source resets `is_required` to `False`
before `group.add_argument`).  Any other tuple arity raises `ValueError`. -/
def addBooleanArgToParser (parser : ArgParser) (fieldId : String)
    (cliCustom : List String) (defaultValue : PyVal) (isRequired : Bool) :
    Except Exc ArgParser :=
  match cliCustom with
  | [k1, k2] =>
    let boolDatum : List (String × Bool × ArgAction) :=
      [(k1, true, .storeTrue), (k2, false, .storeFalse)]
    let members : List ArgSpec :=
      (boolDatum.filter (fun t => ¬ (PyVal.bool t.2.1 = defaultValue))).map
        (fun t => { flags := [t.1], dest := fieldId, default := defaultValue,
                    required := false, action := t.2.2 })
    .ok (parser ++ [.group isRequired members])
  | _ => .error .valueError

/-- Embedding of `_add_pydantic_field_to_parser`.  The override value (an
entry of the Override Map, `...` when absent) replaces the default and
clears requiredness *before* any synthesis decision; booleans split into
negate mode (concrete non-null non-nullable default) and paired mode;
everything else is a single `store` (or `nargs="+"`) argument.  Help-text
assembly (`__to_type_description`) is purely presentational and omitted.
Python's `default_value in {True, False}` numeric-equality quirk
(`1 == True`) is not modelled: a bool-typed field's default is a bool.
The `long_prefix` parameter is fixed at its default `"--"` (the source
never passes another value). -/
def addPydanticFieldToParser (parser : ArgParser) (fieldId : String) (field : ModelField)
    (overrideValue : PyVal := .undef) (overrideCli : Option (List String) := none)
    (boolPfx2 : String × String := ("--enable-", "--disable-")) :
    Except Exc ArgParser :=
  let defaultLongArg := "--" ++ fieldId
  let isRequired0 := field.required
  let defaultValue0 := field.default
  let defaultValue := if overrideValue = .undef then defaultValue0 else overrideValue
  let isRequired := if overrideValue = .undef then isRequired0 else false
  let isBoolWithNonNullDefault :=
    !isRequired && !field.allowNone &&
      (defaultValue == .bool true || defaultValue == .bool false)
  let cliCustomE : Except Exc (List String) :=
    match field.cliExtras with
    | some tup => processTuple tup defaultLongArg
    | none =>
      match overrideCli with
      | none =>
        if field.isBoolType then
          if isBoolWithNonNullDefault then
            .ok [(if defaultValue = .bool true then boolPfx2.2 else boolPfx2.1) ++ fieldId]
          else
            .ok [boolPfx2.1 ++ fieldId, boolPfx2.2 ++ fieldId]
        else .ok [defaultLongArg]
      | some tup => processTuple tup defaultLongArg
  match cliCustomE with
  | .error e => .error e
  | .ok cliCustom =>
    if field.isBoolType then
      if isBoolWithNonNullDefault then
        .ok (addBooleanArgNegateToParser parser fieldId cliCustom defaultValue)
      else
        addBooleanArgToParser parser fieldId cliCustom defaultValue isRequired
    else
      .ok (parser ++ [.arg { flags := cliCustom, dest := fieldId,
                             default := defaultValue, required := isRequired,
                             action := if field.isSeqShape then .storeList else .store,
                             choices := field.enumChoices }])

/-- Whether argparse treats a token as option-like when scanning for the
value of a `store` action: it starts with `-` and its second character is
not a digit.  (argparse's `_negative_number_matcher` exempts negative
numbers because none of the parsers built by this library register
negative-number-looking option strings; a bare `-` is also not
option-like.)  An option-like token is never consumed as a value, which
makes a `store` action with no usable following token fail with
`expected one argument`. -/
def optionLike (s : String) : Bool :=
  match s.data with
  | '-' :: c :: _ => !c.isDigit
  | _ => false

/-- Flags of a parser flattened in registration order; each mutually
exclusive group member is tagged with its group's entry index. -/
def flattenSpecs (p : ArgParser) : List (ArgSpec × Option Nat) :=
  (p.enum.map (fun ie =>
    match ie.2 with
    | .arg a => [(a, (none : Option Nat))]
    | .group _ ms => ms.map (fun m => (m, some ie.1)))).flatten

/-- Finds the first registered argument owning the given option string. -/
def findFlatAux (tok : String) : Nat → List (ArgSpec × Option Nat) →
    Option (Nat × ArgSpec × Option Nat)
  | _, [] => none
  | i, (a, g) :: rest =>
    if tok ∈ a.flags then some (i, a, g) else findFlatAux tok (i + 1) rest

/-- Lookup of an option string among the flattened registrations. -/
def findFlat (specs : List (ArgSpec × Option Nat)) (tok : String) :
    Option (Nat × ArgSpec × Option Nat) :=
  findFlatAux tok 0 specs

/-- Mutual-exclusion conflict: some *other* member of the same group was
already seen (argparse's `seen_non_default_actions` check). -/
def groupConflict (specs : List (ArgSpec × Option Nat)) (seen : List Nat)
    (i : Nat) (gid : Option Nat) : Bool :=
  match gid with
  | none => false
  | some g =>
    seen.any (fun j => j != i &&
      (match specs.get? j with
       | some (_, some g2) => g2 == g
       | _ => false))

/-- Applies the path validator registered as `type=` on the JSON-config
argument: `_resolve_path_or_none` (with `os.path.abspath` modelled as the
identity) followed by either `_resolve_file` (strict: `IOError` when the
path does not exist) or `_resolve_file_or_none_and_warn` (returns `None`
with a warning). -/
def applyValidator (pathExists : String → Bool) (strict : Bool) (s : String) :
    Except Exc PyVal :=
  if pathExists s then .ok (.str s)
  else if strict then .error .ioError
  else .ok .null

/-- Converts one raw command-line value through the argument's `type=`
converter (identity for arguments registered without one — the library
passes no `type=` for model fields and lets pydantic do conversion). -/
def convertValue (pathExists : String → Bool) (a : ArgSpec) (v : String) :
    Except Exc PyVal :=
  match a.conv with
  | none => .ok (.str v)
  | some strict => applyValidator pathExists strict v

/-- Argparse `choices=` membership test on the raw string value. -/
def checkChoices (a : ArgSpec) (v : String) : Bool :=
  match a.choices with
  | none => true
  | some cs => cs.contains v

/-- State threaded through the argparse consumption loop: the values
stored so far (latest store first), the indices of the registrations seen,
and the unrecognized tokens (argparse's `extras`). -/
structure ParseState where
  stores : List (String × PyVal) := []
  seen : List Nat := []
  extras : List String := []
  deriving Repr, DecidableEq

/-- The left-to-right argparse consumption loop.  Each recognized option
is processed by its action: the eager help/version actions raise
`TerminalEagerCommand`; `store` consumes exactly one non-option-like
token (else `parser.error` → exit status 2, which
`CustomArgumentParser.exit` converts to `FailedExecutionException(2)`);
the boolean stores consume none; `storeList` consumes one or more.
Mutual-exclusion conflicts also end in `parser.error`.  Unrecognized
tokens are collected as extras.  (Argparse's abbreviation matching.
`--flag=value` syntax and short-flag bundling are not modelled: no claim
exercises them, and they would only let additional spellings reach the
same actions.) -/
def consumeTokens (pathExists : String → Bool) (specs : List (ArgSpec × Option Nat)) :
    List String → ParseState → Except Exc ParseState
  | [], st => .ok st
  | tok :: rest, st =>
    match findFlat specs tok with
    | none =>
      consumeTokens pathExists specs rest { st with extras := st.extras ++ [tok] }
    | some (i, a, gid) =>
      match a.action with
      | .eagerHelp => .error .terminalEager
      | .eagerVersion => .error .terminalEager
      | .storeTrue =>
        if groupConflict specs st.seen i gid then .error (.failedExecution 2)
        else consumeTokens pathExists specs rest
          { st with seen := st.seen ++ [i],
                    stores := (a.dest, .bool true) :: st.stores }
      | .storeFalse =>
        if groupConflict specs st.seen i gid then .error (.failedExecution 2)
        else consumeTokens pathExists specs rest
          { st with seen := st.seen ++ [i],
                    stores := (a.dest, .bool false) :: st.stores }
      | .store =>
        match rest with
        | [] => .error (.failedExecution 2)
        | v :: rest2 =>
          if optionLike v then .error (.failedExecution 2)
          else
            match convertValue pathExists a v with
            | .error e => .error e
            | .ok val =>
              if checkChoices a v then
                if groupConflict specs st.seen i gid then .error (.failedExecution 2)
                else consumeTokens pathExists specs rest2
                  { st with seen := st.seen ++ [i],
                            stores := (a.dest, val) :: st.stores }
              else .error (.failedExecution 2)
      | .storeList =>
        let vals := rest.takeWhile (fun v => !optionLike v)
        if vals.isEmpty then .error (.failedExecution 2)
        else if vals.all (fun v => checkChoices a v) then
          if groupConflict specs st.seen i gid then .error (.failedExecution 2)
          else consumeTokens pathExists specs (rest.drop vals.length)
            { st with seen := st.seen ++ [i],
                      stores := (a.dest, .strList vals) :: st.stores }
        else .error (.failedExecution 2)
  termination_by args _ => args.length
  decreasing_by
  · simp
  · simp
  · simp
  · simp [Nat.lt_succ_of_le]
  · simp; omega

/-- Whether an action is one of the custom eager actions (registered with
`dest=SUPPRESS`, so it never contributes a namespace attribute and is
skipped by the end-of-parse bookkeeping). -/
def isEagerAction : ArgAction → Bool
  | .eagerHelp => true
  | .eagerVersion => true
  | _ => false

/-- Argparse's end-of-parse loop over the registered actions, in
registration order: an unseen required action is a parse error
(`the following arguments are required`), and an unseen action whose
default is a string and which has a `type=` converter gets its default
converted (this is how the JSON-config flag's *default* path is validated
when the flag is not given on the command line). -/
def endLoop (pathExists : String → Bool) :
    List (Nat × ArgSpec × Option Nat) → List Nat → List (String × PyVal) →
    Except Exc (List (String × PyVal))
  | [], _, stores => .ok stores
  | (i, a, _) :: rest, seen, stores =>
    if isEagerAction a.action then endLoop pathExists rest seen stores
    else if seen.contains i then endLoop pathExists rest seen stores
    else if a.required then .error (.failedExecution 2)
    else
      match a.default, a.conv, stores.lookup a.dest with
      | .str s, some strict, none =>
        match applyValidator pathExists strict s with
        | .ok v => endLoop pathExists rest seen ((a.dest, v) :: stores)
        | .error e => .error e
      | _, _, _ => endLoop pathExists rest seen stores

/-- Whether some seen registration belongs to the group with entry
index `g`. -/
def seenHasGroup (specs : List (ArgSpec × Option Nat)) (seen : List Nat) (g : Nat) : Bool :=
  seen.any (fun j =>
    match specs.get? j with
    | some (_, some g2) => g2 == g
    | _ => false)

/-- Argparse's required-group check: a required mutually exclusive group
none of whose members was seen is a parse error
(`one of the arguments ... is required`). -/
def checkGroupsRequired (specs : List (ArgSpec × Option Nat)) (seen : List Nat) :
    List (Nat × ParserEntry) → Except Exc Unit
  | [] => .ok ()
  | (i, .group true _) :: rest =>
    if seenHasGroup specs seen i then checkGroupsRequired specs seen rest
    else .error (.failedExecution 2)
  | _ :: rest => checkGroupsRequired specs seen rest

/-- Assembles the argparse namespace: one attribute per registered
destination in registration order (group members share one destination),
taking the stored value when the option was supplied and the registered
default otherwise; eager actions (`dest=SUPPRESS`) contribute nothing. -/
def assembleNs : List (ArgSpec × Option Nat) → List (String × PyVal) → List String →
    List (String × PyVal)
  | [], _, _ => []
  | (a, _) :: rest, stores, done =>
    if isEagerAction a.action then assembleNs rest stores done
    else if done.contains a.dest then assembleNs rest stores done
    else (a.dest, (stores.lookup a.dest).getD a.default) :: assembleNs rest stores (a.dest :: done)

/-- Model of `parser.parse_known_args(args)` on a parser built by this
library: returns the namespace (as an association list) and the
unrecognized extras. -/
def parseKnownArgsModel (pathExists : String → Bool) (p : ArgParser) (args : List String) :
    Except Exc (List (String × PyVal) × List String) := do
  let specs := flattenSpecs p
  let st ← consumeTokens pathExists specs args {}
  let stores ← endLoop pathExists specs.enum st.seen st.stores
  let _ ← checkGroupsRequired specs st.seen p.enum
  .ok (assembleNs specs stores [], st.extras)

/-- Model of `parser.parse_args(args)`: `parse_known_args` plus the
`unrecognized arguments` error (again `parser.error` → exit status 2 →
`FailedExecutionException(2)`). -/
def parseArgsModel (pathExists : String → Bool) (p : ArgParser) (args : List String) :
    Except Exc (List (String × PyVal)) := do
  let (ns, extras) ← parseKnownArgsModel pathExists p args
  if extras.isEmpty then .ok ns else .error (.failedExecution 2)

/-- Embedding of `argparse._parser_add_help`: registers `--help` with the
`EagerHelpAction` (which prints help and raises `TerminalEagerCommand`);
`dest`/`default` are `SUPPRESS`, so the entry never reaches the
namespace. -/
def parserAddHelp (p : ArgParser) : ArgParser :=
  p ++ [.arg { flags := ["--help"], dest := "", action := .eagerHelp }]

/-- Embedding of `argparse._parser_add_version`: registers `--version`
with the `EagerVersionAction` (prints the version string and raises
`TerminalEagerCommand`). -/
def parserAddVersion (p : ArgParser) (_version : String) : ArgParser :=
  p ++ [.arg { flags := ["--version"], dest := "", action := .eagerVersion }]

/-- Embedding of `_parser_add_arg_json_file`: registers
`--{json_config_key}` as optional, with the resolved path (schema default
possibly overridden by the env var) as its default, and the strict or
warning path validator as `type=` depending on
`json_config_path_validate`.  The argparse-derived destination replaces
`-` with `_`. -/
def parserAddArgJsonFile (p : ArgParser) (cliConfig : CliConfig) : ArgParser :=
  p ++ [.arg { flags := ["--" ++ cliConfig.jsonConfigKey]
               dest := jsonConfigKeySanitized cliConfig
               default := match cliConfig.jsonConfigPath with
                          | some s => .str s
                          | none => .null
               required := false
               action := .store
               conv := some cliConfig.jsonConfigPathValidate }]

/-- Embedding of `create_parser_with_config_json_file_arg`: the minimal
parser used by the override-resolution pass — only the JSON-path flag, no
eager actions. -/
def createParserWithConfigJsonFileArg (cliConfig : CliConfig) : ArgParser :=
  parserAddArgJsonFile [] cliConfig

/-- Embedding of `utils._load_json_file` over an abstract file system
`fs` mapping a path to the flat field→value object parsed from it
(`none` means the file is missing or unreadable, an `OSError`). -/
def loadJsonFile (fs : String → Option (List (String × PyVal))) (jsonPath : String) :
    Except Exc (List (String × PyVal)) :=
  match fs jsonPath with
  | some d => .ok d
  | none => .error .ioError

/-- Embedding of `setup_hook_to_load_json`: a permissive
`parse_known_args` pass over the minimal JSON-flag parser extracts the
path (command-line value, else the resolved default); a non-`None` path
is loaded as the Override Map, otherwise the map is empty. -/
def setupHookToLoadJson (pathExists : String → Bool)
    (fs : String → Option (List (String × PyVal)))
    (args : List String) (cliConfig : CliConfig) :
    Except Exc (List (String × PyVal)) := do
  let parser := createParserWithConfigJsonFileArg cliConfig
  let (pjargs, _) ← parseKnownArgsModel pathExists parser args
  match pjargs.lookup (jsonConfigKeySanitized cliConfig) with
  | some (.str jsonConfigPath) => loadJsonFile fs jsonConfigPath
  | _ => .ok []

/-- Embedding of `null_setup_hook`. -/
def nullSetupHook : Except Exc (List (String × PyVal)) := .ok []

/-- Embedding of `_add_pydantic_class_to_parser`'s loop body, folding the
fields in declaration order.  (The source recomputes
`_get_cli_config_from_model(cls)` inside the loop; the result is the same
every iteration, so it is hoisted into `cliConfig`.) -/
def addFieldsToParser (cliConfig : CliConfig) (defaultOverrides : List (String × PyVal)) :
    ArgParser → List (String × ModelField) → Except Exc ArgParser
  | p, [] => .ok p
  | p, (ix, field) :: rest => do
    let defaultCliOpts := cliConfig.customOpts.lookup ix
    let overrideValue := (defaultOverrides.lookup ix).getD .undef
    let p2 ← addPydanticFieldToParser p ix field overrideValue defaultCliOpts cliConfig.boolPfx
    addFieldsToParser cliConfig defaultOverrides p2 rest

/-- Embedding of `_add_pydantic_class_to_parser`. -/
def addPydanticClassToParser (p : ArgParser) (cls : ModelClass) (env : String → Option String)
    (defaultOverrides : List (String × PyVal)) : Except Exc ArgParser :=
  addFieldsToParser (getCliConfigFromModel cls env) defaultOverrides p cls.fields

/-- Embedding of `pydantic_class_to_parser`: all the fields, then (when
enabled) the JSON-config flag, then `--help`, then (when a version string
was supplied) `--version`.  The optional shell-completion flag
(`CLI_SHELL_COMPLETION_ENABLE`, requiring the external `shtab` package)
is exercised by no claim and its registration is omitted. -/
def pydanticClassToParser (cls : ModelClass) (env : String → Option String)
    (version : Option String) (defaultValueOverride : List (String × PyVal)) :
    Except Exc ArgParser := do
  let p ← addPydanticClassToParser [] cls env defaultValueOverride
  let cliConfig := getCliConfigFromModel cls env
  let p := if cliConfig.jsonConfigEnable then parserAddArgJsonFile p cliConfig else p
  let p := parserAddHelp p
  let p := match version with
           | some v => parserAddVersion p v
           | none => p
  .ok p

/-- Embedding of `_get_error_exit_code`: a `FailedExecutionException`
carries its own exit code; any other exception maps to the default. -/
def getErrorExitCode (ex : Exc) (defaultExitCode : Int := 1) : Int :=
  match ex with
  | .failedExecution exitCode => exitCode
  | _ => defaultExitCode

/-- Embedding of `default_exception_handler` (and of
`default_minimal_exception_handler`): stderr output aside, both return
`_get_error_exit_code(ex, 1)`. -/
def defaultExceptionHandler (ex : Exc) : Int :=
  getErrorExitCode ex 1

/-- The part of `_runner`'s `try:` body up to `pure_d`: run the setup
hook (override resolution), build the parser over the overrides, parse
the argv, and strip every namespace key that is not a declared schema
property (`cls.schema()["properties"].keys()`).  The result is exactly
the keyword mapping handed to `cls(**pure_d)`. -/
def runnerPureDict (setupHook : Except Exc (List (String × PyVal)))
    (toParser : List (String × PyVal) → Except Exc ArgParser)
    (args : List String) (pathExists : String → Bool) (pureKeys : List String) :
    Except Exc (List (String × PyVal)) := do
  let customDefaultValues ← setupHook
  let parser ← toParser customDefaultValues
  let pargs ← parseArgsModel pathExists parser args
  .ok (pargs.filter (fun kv => pureKeys.contains kv.1))

/-- The whole `try:` body of `_runner`: construct the model from the
filtered mapping, run the redundant `cls.validate`, the prologue hook,
and the runner function.  Model construction, validation and the hooks
are the abstract pydantic/user collaborators. -/
def runnerTryBody {μ : Type} (setupHook : Except Exc (List (String × PyVal)))
    (toParser : List (String × PyVal) → Except Exc ArgParser)
    (args : List String) (pathExists : String → Bool) (pureKeys : List String)
    (mkModel : List (String × PyVal) → Except Exc μ)
    (validateModel : μ → Except Exc Unit)
    (prologueHandler : μ → Except Exc Unit)
    (runnerFunc : μ → Except Exc Int) : Except Exc Int := do
  let pureD ← runnerPureDict setupHook toParser args pathExists pureKeys
  let opts ← mkModel pureD
  let _ ← validateModel opts
  let _ ← prologueHandler opts
  runnerFunc opts

/-- The two `except` clauses of `_runner`: `TerminalEagerCommand` maps to
exit code 0; any other `Exception` goes through the exception handler; a
`BaseException` outside the `Exception` hierarchy is not caught. -/
def catchExit (body : Except Exc Int) (exceptionHandler : Exc → Int) : Except Exc Int :=
  match body with
  | .ok exitCode => .ok exitCode
  | .error .terminalEager => .ok 0
  | .error e => if e.isCatchable then .ok (exceptionHandler e) else .error e

/-- Embedding of `_runner`.  `t0` is the `now()` sample taken just before
the setup hook, `t1` the sample taken just before the epilogue call, so
the epilogue receives `t1 - t0` elapsed.  The returned pair is the final
outcome (`.error` when an uncaught exception — including one raised by
the epilogue itself — propagates out of `_runner`) together with the log
of epilogue invocations `(exit code, elapsed)`. -/
def pyRunner {μ : Type} (setupHook : Except Exc (List (String × PyVal)))
    (toParser : List (String × PyVal) → Except Exc ArgParser)
    (args : List String) (pathExists : String → Bool) (pureKeys : List String)
    (mkModel : List (String × PyVal) → Except Exc μ)
    (validateModel : μ → Except Exc Unit)
    (prologueHandler : μ → Except Exc Unit)
    (runnerFunc : μ → Except Exc Int)
    (exceptionHandler : Exc → Int)
    (epilogueHandler : Int → Nat → Except Exc Unit)
    (t0 t1 : Nat) : Except Exc Int × List (Int × Nat) :=
  let body := runnerTryBody setupHook toParser args pathExists pureKeys
    mkModel validateModel prologueHandler runnerFunc
  match catchExit body exceptionHandler with
  | .ok exitCode =>
    match epilogueHandler exitCode (t1 - t0) with
    | .ok _ => (.ok exitCode, [(exitCode, t1 - t0)])
    | .error e => (.error e, [(exitCode, t1 - t0)])
  | .error e => (.error e, [])

/-- The setup hook `_runner_with_args` wires in: when JSON config is
enabled, `setup_hook_to_load_json` over a copy of the CLI config with
path validation disabled; otherwise `null_setup_hook`. -/
def runnerSetupHook (cls : ModelClass) (env : String → Option String)
    (pathExists : String → Bool) (fs : String → Option (List (String × PyVal)))
    (args : List String) : Except Exc (List (String × PyVal)) :=
  let cliConfig := getCliConfigFromModel cls env
  if cliConfig.jsonConfigEnable then
    setupHookToLoadJson pathExists fs args { cliConfig with jsonConfigPathValidate := false }
  else nullSetupHook

/-- The parser factory `_runner_with_args` wires in (`to_p`): the model
class compiled to a parser over the Override Map.  (`set_defaults(func=,
cls=)` attaches the runner function and class as namespace bookkeeping;
here they are closure constants and the bookkeeping keys do not reach the
model thanks to the `pure_keys` filter.) -/
def runnerToParser (cls : ModelClass) (env : String → Option String)
    (version : Option String) : List (String × PyVal) → Except Exc ArgParser :=
  fun defaultOverrideDict => pydanticClassToParser cls env version defaultOverrideDict

/-- The `pure_d` mapping computed by `_runner` under `_runner_with_args`'s
wiring (what `cls(**pure_d)` receives). -/
def runnerWithArgsPureDict (cls : ModelClass) (env : String → Option String)
    (pathExists : String → Bool) (fs : String → Option (List (String × PyVal)))
    (version : Option String) (args : List String) : Except Exc (List (String × PyVal)) :=
  runnerPureDict (runnerSetupHook cls env pathExists fs args)
    (runnerToParser cls env version) args pathExists (cls.fields.map (fun kv => kv.1))

/-- Embedding of `_runner_with_args` (the function `to_runner(...)` 
applies to the argv list). -/
def runnerWithArgs {μ : Type} (cls : ModelClass) (env : String → Option String)
    (pathExists : String → Bool) (fs : String → Option (List (String × PyVal)))
    (version : Option String)
    (mkModel : List (String × PyVal) → Except Exc μ)
    (validateModel : μ → Except Exc Unit)
    (prologueHandler : μ → Except Exc Unit)
    (runnerFunc : μ → Except Exc Int)
    (exceptionHandler : Exc → Int)
    (epilogueHandler : Int → Nat → Except Exc Unit)
    (t0 t1 : Nat) (args : List String) : Except Exc Int × List (Int × Nat) :=
  pyRunner (runnerSetupHook cls env pathExists fs args) (runnerToParser cls env version)
    args pathExists (cls.fields.map (fun kv => kv.1))
    mkModel validateModel prologueHandler runnerFunc exceptionHandler epilogueHandler t0 t1

/-! Helper predicates shared by several theorems. -/

/-- Every argument registered by a parser entry is optional and carries
the given default (a group is also itself non-required). -/
def entryNonRequiredWithDefault (v : PyVal) : ParserEntry → Prop
  | .arg a => a.required = false ∧ a.default = v
  | .group r ms => r = false ∧ ∀ m ∈ ms, m.required = false ∧ m.default = v

/-- The requiredness recorded by a parser entry: the `required=` of a
plain argument, or the group-level `required=` of a mutually exclusive
group (whose members are individually optional). -/
def entryRequiredIs (r : Bool) : ParserEntry → Prop
  | .arg a => a.required = r
  | .group gr ms => gr = r ∧ ∀ m ∈ ms, m.required = false

/-- C5: custom CLI spec processing.  Arity 1 with a two-character token
keeps it and adds the default long flag; arity 1 otherwise keeps the
token alone; arity 2 is verbatim; arity above 2 raises the configuration
`ValueError`; and a model class carrying such a malformed spec makes the
parser construction itself fail, for every argv, before any argv is
parsed (the pipeline never reaches the parse stage). -/
theorem processTuple_spec (x a b c long f1 : String) (rest : List String)
    (field : ModelField) (hx : field.cliExtras = some (a :: b :: c :: rest)) :
    (x.length = 2 → processTuple [x] long = .ok [x, long]) ∧
    (x.length ≠ 2 → processTuple [x] long = .ok [x]) ∧
    processTuple [a, b] long = .ok [a, b] ∧
    processTuple (a :: b :: c :: rest) long = .error .valueError ∧
    (∀ (args : List String) (env : String → Option String) (pe : String → Bool)
        (fs : String → Option (List (String × PyVal))) (version : Option String),
      runnerWithArgsPureDict { fields := [(f1, field)] } env pe fs version args
        = .error .valueError) := by
  refine ⟨fun h => by simp [processTuple, h], fun h => by simp [processTuple, h],
    by simp [processTuple], by simp [processTuple], ?_⟩
  intro args env pe fs version
  simp [runnerWithArgsPureDict, runnerPureDict, runnerSetupHook, runnerToParser,
    pydanticClassToParser, addPydanticClassToParser, addFieldsToParser,
    addPydanticFieldToParser, hx, processTuple, nullSetupHook, getCliConfigFromModel,
    Bind.bind, Except.bind]

/-- Witness for C5 at concrete inputs. -/
theorem processTuple_spec_witness :
    (("-m" : String).length = 2 → processTuple ["-m"] "--max_records" = .ok ["-m", "--max_records"]) ∧
    (("-m" : String).length ≠ 2 → processTuple ["-m"] "--max_records" = .ok ["-m"]) ∧
    processTuple ["-m", "--max-records"] "--max_records" = .ok ["-m", "--max-records"] ∧
    processTuple ["-m", "--max-records", "-x"] "--max_records" = .error .valueError ∧
    (∀ (args : List String) (env : String → Option String) (pe : String → Bool)
        (fs : String → Option (List (String × PyVal))) (version : Option String),
      runnerWithArgsPureDict
        { fields := [("max_records", { cliExtras := some ["-m", "--max-records", "-x"] })] }
        env pe fs version args = .error .valueError) :=
  processTuple_spec "-m" "-m" "--max-records" "-x" "--max_records" "max_records" []
    { cliExtras := some ["-m", "--max-records", "-x"] } rfl

/-- C4: negate mode.  A boolean field with a concrete non-null default
and a non-nullable type synthesizes exactly one optional argument whose
action stores the negation of the default; without a custom CLI spec its
flag is the disable-prefixed name when the default is `True` and the
enable-prefixed name when it is `False`; supplying the flag stores the
negated default and omitting it leaves the default. -/
theorem booleanNegateMode (p : ArgParser) (fieldId : String) (b : Bool)
    (bp : String × String) (field : ModelField) (pe : String → Bool)
    (hb : field.isBoolType = true) (hr : field.required = false)
    (hn : field.allowNone = false) (hd : field.default = .bool b)
    (hcli : field.cliExtras = none) :
    addPydanticFieldToParser p fieldId field .undef none bp =
      .ok (p ++ [.arg { flags := [(if b then bp.2 else bp.1) ++ fieldId], dest := fieldId,
                        default := .bool b, required := false,
                        action := if b then .storeFalse else .storeTrue }]) ∧
    parseArgsModel pe
      [.arg { flags := [(if b then bp.2 else bp.1) ++ fieldId], dest := fieldId,
              default := .bool b, required := false,
              action := if b then .storeFalse else .storeTrue }]
      [(if b then bp.2 else bp.1) ++ fieldId] = .ok [(fieldId, .bool (!b))] ∧
    parseArgsModel pe
      [.arg { flags := [(if b then bp.2 else bp.1) ++ fieldId], dest := fieldId,
              default := .bool b, required := false,
              action := if b then .storeFalse else .storeTrue }]
      [] = .ok [(fieldId, .bool b)] := by
  refine ⟨?_, ?_, ?_⟩
  · cases b <;>
      simp [addPydanticFieldToParser, hb, hr, hn, hd, hcli, addBooleanArgNegateToParser]
  · cases b <;>
      simp [parseArgsModel, parseKnownArgsModel, consumeTokens, findFlat, findFlatAux,
        flattenSpecs, groupConflict, endLoop, checkGroupsRequired, assembleNs,
        isEagerAction, Bind.bind, Except.bind]
  · cases b <;>
      simp [parseArgsModel, parseKnownArgsModel, consumeTokens, findFlat, findFlatAux,
        flattenSpecs, groupConflict, endLoop, checkGroupsRequired, assembleNs,
        isEagerAction, Bind.bind, Except.bind]

/-- Witness for C4 at a concrete field (`debug: bool = False` with the
default prefixes). -/
theorem booleanNegateMode_witness :
    addPydanticFieldToParser [] "debug"
      { required := false, allowNone := false, default := .bool false, isBoolType := true }
      .undef none ("--enable-", "--disable-") =
      .ok ([] ++ [.arg { flags := [(if false then "--disable-" else "--enable-") ++ "debug"],
                         dest := "debug", default := .bool false, required := false,
                         action := if false then .storeFalse else .storeTrue }]) ∧
    parseArgsModel (fun _ => false)
      [.arg { flags := [(if false then "--disable-" else "--enable-") ++ "debug"],
              dest := "debug", default := .bool false, required := false,
              action := if false then .storeFalse else .storeTrue }]
      [(if false then "--disable-" else "--enable-") ++ "debug"] = .ok [("debug", .bool (!false))] ∧
    parseArgsModel (fun _ => false)
      [.arg { flags := [(if false then "--disable-" else "--enable-") ++ "debug"],
              dest := "debug", default := .bool false, required := false,
              action := if false then .storeFalse else .storeTrue }]
      [] = .ok [("debug", .bool false)] :=
  booleanNegateMode [] "debug" false ("--enable-", "--disable-")
    { required := false, allowNone := false, default := .bool false, isBoolType := true }
    (fun _ => false) rfl rfl rfl rfl rfl

/-- Helper for C6: the registrations a field contributes when it is
non-required are themselves non-required and carry the field's default. -/
theorem addField_entries (p : ArgParser) (fieldId : String) (f : ModelField)
    (ovCli : Option (List String)) (bp : String × String) (p2 : ArgParser)
    (hreq : f.required = false)
    (h : addPydanticFieldToParser p fieldId f .undef ovCli bp = .ok p2) :
    ∃ es, p2 = p ++ es ∧ ∀ e ∈ es, entryNonRequiredWithDefault f.default e := by
  unfold addPydanticFieldToParser at h
  simp only [hreq, reduceIte] at h
  split at h
  · exact absurd h (by simp)
  · split at h
    · split at h
      · simp only [addBooleanArgNegateToParser, Except.ok.injEq] at h
        refine ⟨_, h.symm, ?_⟩
        intro e he
        simp at he
        subst he
        simp [entryNonRequiredWithDefault]
      · unfold addBooleanArgToParser at h
        split at h
        · simp only [Except.ok.injEq] at h
          refine ⟨_, h.symm, ?_⟩
          intro e he
          simp at he
          subst he
          refine ⟨rfl, ?_⟩
          intro m hm
          simp only [List.mem_map, List.mem_filter] at hm
          obtain ⟨t, _, ht⟩ := hm
          rw [← ht]
          exact ⟨rfl, rfl⟩
        · exact absurd h (by simp)
    · simp only [Except.ok.injEq] at h
      refine ⟨_, h.symm, ?_⟩
      intro e he
      simp at he
      subst he
      simp [entryNonRequiredWithDefault]

/-- C6: an Override Map entry replaces the field's default and clears its
requiredness *before* flag synthesis — registering the field behaves
exactly as registering a field declared non-required with the override
value as default — and every argument actually registered is optional
and carries the override value as its default (groups included). -/
theorem overrideRelaxesRequired (p : ArgParser) (fieldId : String) (field : ModelField)
    (v : PyVal) (ovCli : Option (List String)) (bp : String × String)
    (hv : v ≠ .undef) :
    addPydanticFieldToParser p fieldId field v ovCli bp =
      addPydanticFieldToParser p fieldId
        { field with default := v, required := false } .undef ovCli bp ∧
    (∀ p2, addPydanticFieldToParser p fieldId field v ovCli bp = .ok p2 →
      ∃ es, p2 = p ++ es ∧ ∀ e ∈ es, entryNonRequiredWithDefault v e) := by
  have h1 : addPydanticFieldToParser p fieldId field v ovCli bp =
      addPydanticFieldToParser p fieldId
        { field with default := v, required := false } .undef ovCli bp := by
    simp [addPydanticFieldToParser, hv]
  refine ⟨h1, ?_⟩
  intro p2 h
  rw [h1] at h
  exact addField_entries _ _ _ _ _ _ rfl h

/-- Witness for C6: overriding a required integer field with `99`. -/
theorem overrideRelaxesRequired_witness :
    addPydanticFieldToParser [] "max_records" { required := true } (.int 99) none
        ("--enable-", "--disable-") =
      addPydanticFieldToParser [] "max_records"
        { ({ required := true } : ModelField) with default := .int 99, required := false }
        .undef none ("--enable-", "--disable-") ∧
    (∀ p2, addPydanticFieldToParser [] "max_records" { required := true } (.int 99) none
        ("--enable-", "--disable-") = .ok p2 →
      ∃ es, p2 = [] ++ es ∧ ∀ e ∈ es, entryNonRequiredWithDefault (.int 99) e) :=
  overrideRelaxesRequired [] "max_records" { required := true } (.int 99) none
    ("--enable-", "--disable-") (by decide)

/-- Counterexample for C7: pydantic v1 marks a bare optional field such
as `outfile: Optional[str]` (examples/simple_with_boolean_custom.py, and
per its comments indistinguishable from `fasta: Optional[str] = None`)
as `required=False` with default `None`; the synthesized flag is then
registered with `required := false`, not required as the claim states. -/
theorem bareOptionalNotRequired_cx :
    addPydanticFieldToParser [] "outfile"
      { required := false, allowNone := true, default := .null } .undef none
      ("--enable-", "--disable-") =
      .ok [.arg { flags := ["--outfile"], dest := "outfile", default := .null,
                  required := false, action := .store }] := by rfl

/-- C7 (amended): for a nullable field with no concrete default, the
synthesized registration is required exactly when the schema's field
descriptor reports the field required (`field.required`, e.g. set via
`Field(...)`); the optional wrapper itself plays no role in requiredness. -/
theorem nullableNoDefaultRequiredness (p : ArgParser) (fieldId : String)
    (field : ModelField) (bp : String × String)
    (hn : field.allowNone = true) (hd : field.default = .null)
    (hcli : field.cliExtras = none) :
    ∀ p2, addPydanticFieldToParser p fieldId field .undef none bp = .ok p2 →
      ∃ es, p2 = p ++ es ∧ es ≠ [] ∧ ∀ e ∈ es, entryRequiredIs field.required e := by
  intro p2 h
  unfold addPydanticFieldToParser at h
  cases hb : field.isBoolType with
  | true =>
    simp [hcli, hn, hd, hb, addBooleanArgToParser] at h
    refine ⟨_, h.symm, by simp, ?_⟩
    intro e he
    simp only [List.mem_singleton] at he
    subst he
    refine ⟨rfl, ?_⟩
    intro m hm
    simp at hm
    rcases hm with rfl | rfl <;> rfl
  | false =>
    simp [hcli, hn, hd, hb] at h
    refine ⟨_, h.symm, by simp, ?_⟩
    intro e he
    simp only [List.mem_singleton] at he
    subst he
    rfl

/-- Witness for the amended C7 at the explicitly-required nullable field
`report_json: Optional[str] = Field(...)` (required with default `None`). -/
theorem nullableNoDefaultRequiredness_witness :
    ∃ es, [ParserEntry.arg { flags := ["--report_json"], dest := "report_json",
                             default := .null, required := true,
                             action := .store }] = [] ++ es ∧ es ≠ [] ∧
      ∀ e ∈ es, entryRequiredIs true e :=
  nullableNoDefaultRequiredness [] "report_json"
    { required := true, allowNone := true, default := .null } ("--enable-", "--disable-")
    rfl rfl rfl _ rfl

/-- C3: paired boolean mode.  A boolean field without a usable non-null
boolean default synthesizes a mutually exclusive pair — default
enable- and disable- prefixed flags, or a custom two-element pair whose
first token is the True-flag and whose second is the False-flag — with
the member storing the default suppressed, the group required iff the
field is required, and each member individually optional; at parse time
supplying both flags is rejected, supplying neither of a required pair
is rejected, and supplying exactly one stores its boolean. -/
theorem pairedBooleanMode (fieldId : String) (field : ModelField) (bp : String × String)
    (pe : String → Bool) (k1 k2 : String)
    (hb : field.isBoolType = true)
    (hpair : (!field.required && !field.allowNone &&
      (field.default == .bool true || field.default == .bool false)) = false) :
    (field.cliExtras = none →
      addPydanticFieldToParser [] fieldId field .undef none bp =
        .ok [.group field.required
          (([(bp.1 ++ fieldId, true, ArgAction.storeTrue),
             (bp.2 ++ fieldId, false, ArgAction.storeFalse)].filter
              (fun t => ¬ (PyVal.bool t.2.1 = field.default))).map
            (fun t => { flags := [t.1], dest := fieldId, default := field.default,
                        required := false, action := t.2.2 }))]) ∧
    (field.cliExtras = some [k1, k2] →
      addPydanticFieldToParser [] fieldId field .undef none bp =
        .ok [.group field.required
          (([(k1, true, ArgAction.storeTrue), (k2, false, ArgAction.storeFalse)].filter
              (fun t => ¬ (PyVal.bool t.2.1 = field.default))).map
            (fun t => { flags := [t.1], dest := fieldId, default := field.default,
                        required := false, action := t.2.2 }))]) ∧
    (∀ f1 f2 : String, f1 ≠ f2 →
      (parseArgsModel pe
        [.group true
          [{ flags := [f1], dest := fieldId, default := .null, required := false,
             action := .storeTrue },
           { flags := [f2], dest := fieldId, default := .null, required := false,
             action := .storeFalse }]]
        [f1, f2] = .error (.failedExecution 2)) ∧
      (parseArgsModel pe
        [.group true
          [{ flags := [f1], dest := fieldId, default := .null, required := false,
             action := .storeTrue },
           { flags := [f2], dest := fieldId, default := .null, required := false,
             action := .storeFalse }]]
        [] = .error (.failedExecution 2)) ∧
      (parseArgsModel pe
        [.group true
          [{ flags := [f1], dest := fieldId, default := .null, required := false,
             action := .storeTrue },
           { flags := [f2], dest := fieldId, default := .null, required := false,
             action := .storeFalse }]]
        [f1] = .ok [(fieldId, .bool true)]) ∧
      (parseArgsModel pe
        [.group true
          [{ flags := [f1], dest := fieldId, default := .null, required := false,
             action := .storeTrue },
           { flags := [f2], dest := fieldId, default := .null, required := false,
             action := .storeFalse }]]
        [f2] = .ok [(fieldId, .bool false)])) := by
  refine ⟨?_, ?_, ?_⟩
  · intro hcli
    simp [addPydanticFieldToParser, hb, hcli, hpair, addBooleanArgToParser]
  · intro hcli
    simp [addPydanticFieldToParser, hb, hcli, hpair, addBooleanArgToParser, processTuple]
  · intro f1 f2 hne
    refine ⟨?_, ?_, ?_, ?_⟩ <;>
      simp [parseArgsModel, parseKnownArgsModel, consumeTokens, findFlat, findFlatAux,
        flattenSpecs, groupConflict, endLoop, checkGroupsRequired, seenHasGroup, assembleNs,
        isEagerAction, Bind.bind, Except.bind, hne, Ne.symm hne]

/-- Witness for C3 at the concrete required boolean field `alpha: bool`
(pydantic v1 reports it required with default `None`). -/
theorem pairedBooleanMode_witness :
    addPydanticFieldToParser [] "alpha" { required := true, isBoolType := true } .undef none
        ("--enable-", "--disable-") =
      .ok [.group true
        [{ flags := ["--enable-alpha"], dest := "alpha", default := .null,
           required := false, action := .storeTrue },
         { flags := ["--disable-alpha"], dest := "alpha", default := .null,
           required := false, action := .storeFalse }]] ∧
    parseArgsModel (fun _ => false)
      [.group true
        [{ flags := ["--enable-alpha"], dest := "alpha", default := .null,
           required := false, action := .storeTrue },
         { flags := ["--disable-alpha"], dest := "alpha", default := .null,
           required := false, action := .storeFalse }]]
      ["--enable-alpha", "--disable-alpha"] = .error (.failedExecution 2) ∧
    parseArgsModel (fun _ => false)
      [.group true
        [{ flags := ["--enable-alpha"], dest := "alpha", default := .null,
           required := false, action := .storeTrue },
         { flags := ["--disable-alpha"], dest := "alpha", default := .null,
           required := false, action := .storeFalse }]]
      [] = .error (.failedExecution 2) ∧
    parseArgsModel (fun _ => false)
      [.group true
        [{ flags := ["--enable-alpha"], dest := "alpha", default := .null,
           required := false, action := .storeTrue },
         { flags := ["--disable-alpha"], dest := "alpha", default := .null,
           required := false, action := .storeFalse }]]
      ["--enable-alpha"] = .ok [("alpha", .bool true)] ∧
    parseArgsModel (fun _ => false)
      [.group true
        [{ flags := ["--enable-alpha"], dest := "alpha", default := .null,
           required := false, action := .storeTrue },
         { flags := ["--disable-alpha"], dest := "alpha", default := .null,
           required := false, action := .storeFalse }]]
      ["--disable-alpha"] = .ok [("alpha", .bool false)] := by
  obtain ⟨h1, h2, h3⟩ := pairedBooleanMode "alpha" { required := true, isBoolType := true }
    ("--enable-", "--disable-") (fun _ => false) "--on" "--off" rfl rfl
  obtain ⟨c1, c2, c3, c4⟩ := h3 "--enable-alpha" "--disable-alpha" (by decide)
  exact ⟨by simpa using h1 rfl, c1, c2, c3, c4⟩

/-- Helper for C10: the per-field loop never consults an Override Map
entry whose key is not a declared field name. -/
theorem addFields_override_extraKey (cfg : CliConfig) (k : String) (v : PyVal)
    (ov : List (String × PyVal)) :
    ∀ (fs : List (String × ModelField)) (p : ArgParser),
      ¬ k ∈ fs.map (fun kv => kv.1) →
      addFieldsToParser cfg ((k, v) :: ov) p fs = addFieldsToParser cfg ov p fs := by
  intro fs
  induction fs with
  | nil => intro p _; rfl
  | cons hd tl ih =>
    obtain ⟨ix, f⟩ := hd
    intro p hk
    simp only [List.map_cons, List.mem_cons] at hk
    push_neg at hk
    have hbe : (ix == k) = false := by simp [Ne.symm hk.1]
    have hlk : ((k, v) :: ov).lookup ix = ov.lookup ix := by
      simp [List.lookup, hbe]
    cases haf : addPydanticFieldToParser p ix f ((ov.lookup ix).getD .undef)
        (cfg.customOpts.lookup ix) cfg.boolPfx with
    | error e =>
      simp [addFieldsToParser, hlk, haf, Bind.bind, Except.bind]
    | ok p2 =>
      simp [addFieldsToParser, hlk, haf, Bind.bind, Except.bind]
      exact ih p2 hk.2

/-- C10: a JSON-config key that is not a declared schema field is
silently ignored: the parser built over the Override Map is unchanged by
the entry (it is consulted only per declared field), every key handed to
the model constructor is a declared property (`pure_keys` filtering), and
the whole per-invocation constructor mapping is unchanged — so the stray
key causes no error. -/
theorem extraJsonKeysIgnored (cls : ModelClass) (env : String → Option String)
    (version : Option String) (k : String) (v : PyVal) (ov : List (String × PyVal))
    (hk : ¬ k ∈ cls.fields.map (fun kv => kv.1)) :
    pydanticClassToParser cls env version ((k, v) :: ov) =
      pydanticClassToParser cls env version ov ∧
    (∀ (setup : Except Exc (List (String × PyVal)))
        (toParser : List (String × PyVal) → Except Exc ArgParser)
        (args : List String) (pe : String → Bool) (pureKeys : List String)
        (d : List (String × PyVal)),
      runnerPureDict setup toParser args pe pureKeys = .ok d →
        ∀ kv ∈ d, kv.1 ∈ pureKeys) ∧
    (∀ (args : List String) (pe : String → Bool),
      runnerPureDict (.ok ((k, v) :: ov)) (runnerToParser cls env version) args pe
          (cls.fields.map (fun kv => kv.1)) =
        runnerPureDict (.ok ov) (runnerToParser cls env version) args pe
          (cls.fields.map (fun kv => kv.1))) := by
  have ha : pydanticClassToParser cls env version ((k, v) :: ov) =
      pydanticClassToParser cls env version ov := by
    unfold pydanticClassToParser addPydanticClassToParser
    rw [addFields_override_extraKey _ _ _ _ _ _ hk]
  refine ⟨ha, ?_, ?_⟩
  · intro setup toParser args pe pureKeys d hd kv hkv
    rcases setup with e | ov1
    · simp [runnerPureDict, Bind.bind, Except.bind] at hd
    · rcases htp : toParser ov1 with e | parser
      · simp [runnerPureDict, Bind.bind, Except.bind, htp] at hd
      · rcases hpa : parseArgsModel pe parser args with e | ns
        · simp [runnerPureDict, Bind.bind, Except.bind, htp, hpa] at hd
        · simp [runnerPureDict, Bind.bind, Except.bind, htp, hpa] at hd
          subst hd
          simp only [List.mem_filter] at hkv
          simpa using hkv.2
  · intro args pe
    simp [runnerPureDict, runnerToParser, Bind.bind, Except.bind, ha]

/-- Witness for C10: a stray `"stray"` key next to the declared
`max_records` field of a JSON-enabled schema. -/
theorem extraJsonKeysIgnored_witness :
    pydanticClassToParser
        { fields := [("max_records", { required := true })],
          config := { CLI_JSON_ENABLE := some true } }
        (fun _ => none) none [("stray", .int 1)] =
      pydanticClassToParser
        { fields := [("max_records", { required := true })],
          config := { CLI_JSON_ENABLE := some true } }
        (fun _ => none) none [] ∧
    (∀ (setup : Except Exc (List (String × PyVal)))
        (toParser : List (String × PyVal) → Except Exc ArgParser)
        (args : List String) (pe : String → Bool) (pureKeys : List String)
        (d : List (String × PyVal)),
      runnerPureDict setup toParser args pe pureKeys = .ok d →
        ∀ kv ∈ d, kv.1 ∈ pureKeys) ∧
    (∀ (args : List String) (pe : String → Bool),
      runnerPureDict (.ok [("stray", .int 1)])
          (runnerToParser
            { fields := [("max_records", { required := true })],
              config := { CLI_JSON_ENABLE := some true } }
            (fun _ => none) none) args pe
          (({ fields := [("max_records", { required := true })],
              config := { CLI_JSON_ENABLE := some true } } : ModelClass).fields.map
            (fun kv => kv.1)) =
        runnerPureDict (.ok [])
          (runnerToParser
            { fields := [("max_records", { required := true })],
              config := { CLI_JSON_ENABLE := some true } }
            (fun _ => none) none) args pe
          (({ fields := [("max_records", { required := true })],
              config := { CLI_JSON_ENABLE := some true } } : ModelClass).fields.map
            (fun kv => kv.1))) :=
  extraJsonKeysIgnored
    { fields := [("max_records", { required := true })],
      config := { CLI_JSON_ENABLE := some true } }
    (fun _ => none) none "stray" (.int 1) [] (by decide)

/-- Counterexample for C9: a handler raising a `BaseException` outside
the `Exception` hierarchy (e.g. `sys.exit(3)` raising `SystemExit`) is
caught by neither `except` clause of `_runner`, so it propagates and the
epilogue is never invoked (empty invocation log). -/
theorem epilogueSkippedOnSystemExit_cx :
    pyRunner (μ := Unit) (.ok []) (fun _ => .ok []) [] (fun _ => false) []
      (fun _ => .ok ()) (fun _ => .ok ()) (fun _ => .ok ())
      (fun _ => .error (.systemExit 3)) defaultExceptionHandler (fun _ _ => .ok ()) 0 5
      = (.error (.systemExit 3), []) := by
  simp [pyRunner, runnerTryBody, runnerPureDict, parseArgsModel, parseKnownArgsModel,
    consumeTokens, endLoop, checkGroupsRequired, assembleNs, flattenSpecs, catchExit,
    Exc.isCatchable, Bind.bind, Except.bind]

/-- C9 (amended): whenever every stage failure is an ordinary `Exception`
(or the terminal eager signal) — i.e. no stage raises a bare
`BaseException` such as `SystemExit` — the epilogue runs exactly once,
receiving the final exit code and the elapsed time `t1 - t0` sampled just
before override resolution and just before the epilogue call; and an
exception raised inside the epilogue itself is not caught and propagates
out of the runner. -/
theorem epilogueAlwaysRunsOnce {μ : Type} (setupHook : Except Exc (List (String × PyVal)))
    (toParser : List (String × PyVal) → Except Exc ArgParser)
    (args : List String) (pe : String → Bool) (pureKeys : List String)
    (mkModel : List (String × PyVal) → Except Exc μ)
    (validateModel : μ → Except Exc Unit) (prologueHandler : μ → Except Exc Unit)
    (runnerFunc : μ → Except Exc Int) (exceptionHandler : Exc → Int)
    (epilogueHandler : Int → Nat → Except Exc Unit) (t0 t1 : Nat)
    (h : ∀ e, runnerTryBody setupHook toParser args pe pureKeys mkModel validateModel
        prologueHandler runnerFunc = .error e → e.isCatchable = true) :
    ∃ c, catchExit (runnerTryBody setupHook toParser args pe pureKeys mkModel
        validateModel prologueHandler runnerFunc) exceptionHandler = .ok c ∧
      (pyRunner setupHook toParser args pe pureKeys mkModel validateModel prologueHandler
        runnerFunc exceptionHandler epilogueHandler t0 t1).2 = [(c, t1 - t0)] ∧
      (epilogueHandler c (t1 - t0) = .ok () →
        (pyRunner setupHook toParser args pe pureKeys mkModel validateModel prologueHandler
          runnerFunc exceptionHandler epilogueHandler t0 t1).1 = .ok c) ∧
      (∀ e, epilogueHandler c (t1 - t0) = .error e →
        (pyRunner setupHook toParser args pe pureKeys mkModel validateModel prologueHandler
          runnerFunc exceptionHandler epilogueHandler t0 t1).1 = .error e) := by
  have hcatch : ∃ c, catchExit (runnerTryBody setupHook toParser args pe pureKeys mkModel
      validateModel prologueHandler runnerFunc) exceptionHandler = .ok c := by
    rcases hb : runnerTryBody setupHook toParser args pe pureKeys mkModel validateModel
        prologueHandler runnerFunc with e2 | c
    · have hc := h e2 hb
      cases e2 <;> simp_all [catchExit, Exc.isCatchable]
    · exact ⟨c, by simp [catchExit, hb]⟩
  obtain ⟨c, hce⟩ := hcatch
  refine ⟨c, hce, ?_, ?_, ?_⟩
  · cases hep : epilogueHandler c (t1 - t0) <;> simp [pyRunner, hce, hep]
  · intro hep
    simp [pyRunner, hce, hep]
  · intro e hep
    simp [pyRunner, hce, hep]

/-- Witness for the amended C9: a pipeline whose handler returns exit
code 7 normally; the epilogue log is the single entry `(7, 5)`. -/
theorem epilogueAlwaysRunsOnce_witness :
    ∃ c, catchExit (runnerTryBody (μ := Unit) (.ok []) (fun _ => .ok []) [] (fun _ => false)
        [] (fun _ => .ok ()) (fun _ => .ok ()) (fun _ => .ok ()) (fun _ => .ok 7))
        defaultExceptionHandler = .ok c ∧
      (pyRunner (μ := Unit) (.ok []) (fun _ => .ok []) [] (fun _ => false) []
        (fun _ => .ok ()) (fun _ => .ok ()) (fun _ => .ok ()) (fun _ => .ok 7)
        defaultExceptionHandler (fun _ _ => .ok ()) 2 7).2 = [(c, 7 - 2)] ∧
      ((fun (_ : Int) (_ : Nat) => (.ok () : Except Exc Unit)) c (7 - 2) = .ok () →
        (pyRunner (μ := Unit) (.ok []) (fun _ => .ok []) [] (fun _ => false) []
          (fun _ => .ok ()) (fun _ => .ok ()) (fun _ => .ok ()) (fun _ => .ok 7)
          defaultExceptionHandler (fun _ _ => .ok ()) 2 7).1 = .ok c) ∧
      (∀ e, (fun (_ : Int) (_ : Nat) => (.ok () : Except Exc Unit)) c (7 - 2) = .error e →
        (pyRunner (μ := Unit) (.ok []) (fun _ => .ok []) [] (fun _ => false) []
          (fun _ => .ok ()) (fun _ => .ok ()) (fun _ => .ok ()) (fun _ => .ok 7)
          defaultExceptionHandler (fun _ _ => .ok ()) 2 7).1 = .error e) :=
  epilogueAlwaysRunsOnce (μ := Unit) (.ok []) (fun _ => .ok []) [] (fun _ => false) []
    (fun _ => .ok ()) (fun _ => .ok ()) (fun _ => .ok ()) (fun _ => .ok 7)
    defaultExceptionHandler (fun _ _ => .ok ()) 2 7
    (fun e he => absurd he (by
      simp [runnerTryBody, runnerPureDict, parseArgsModel, parseKnownArgsModel,
        consumeTokens, endLoop, checkGroupsRequired, assembleNs, flattenSpecs,
        Bind.bind, Except.bind]))

/-- Counterexample for C8: the missing-required-flag scenario exits with
argparse's parse-error status 2 (carried by `FailedExecutionException`
through `_get_error_exit_code`), not with the default exit code 1. -/
theorem missingRequiredFlag_cx :
    (runnerWithArgs (μ := List (String × PyVal))
        { fields := [("input_file", { required := true }),
                     ("max_records", { required := true })] }
        (fun _ => none) (fun _ => false) (fun _ => none) none
        (fun d => .ok d) (fun _ => .ok ()) (fun _ => .ok ()) (fun _ => .ok 0)
        defaultExceptionHandler (fun _ _ => .ok ()) 0 0 ["--input_file", "f.txt"]).1
      = .ok 2 ∧ (2 : Int) ≠ 1 := by
  refine ⟨?_, by decide⟩
  simp [runnerWithArgs, pyRunner, runnerTryBody, runnerPureDict, runnerSetupHook,
    nullSetupHook, runnerToParser, pydanticClassToParser, addPydanticClassToParser,
    addFieldsToParser, addPydanticFieldToParser, getCliConfigFromModel, parserAddHelp,
    parseArgsModel, parseKnownArgsModel, consumeTokens, findFlat, findFlatAux,
    flattenSpecs, groupConflict, convertValue, checkChoices, optionLike, endLoop,
    checkGroupsRequired, assembleNs, isEagerAction, catchExit, Exc.isCatchable,
    defaultExceptionHandler, getErrorExitCode, Bind.bind, Except.bind]

/-- C8 (amended): for the two-required-field schema and argv missing
`max_records`, the invocation exits with code 2 (the argparse error
status carried by the failed-execution exception, which overrides the
default exit code 1 in `_get_error_exit_code`), the model is never
constructed and the handler never invoked (the outcome is the same for
every constructor, validator, prologue and handler). -/
theorem missingRequiredFlagExitTwo {μ : Type}
    (mkModel : List (String × PyVal) → Except Exc μ)
    (validateModel : μ → Except Exc Unit) (prologueHandler : μ → Except Exc Unit)
    (runnerFunc : μ → Except Exc Int)
    (epilogueHandler : Int → Nat → Except Exc Unit) (t0 t1 : Nat)
    (env : String → Option String) (pe : String → Bool)
    (fs : String → Option (List (String × PyVal))) :
    runnerWithArgs
      { fields := [("input_file", { required := true }),
                   ("max_records", { required := true })] }
      env pe fs none mkModel validateModel prologueHandler runnerFunc
      defaultExceptionHandler epilogueHandler t0 t1 ["--input_file", "f.txt"] =
      (match epilogueHandler 2 (t1 - t0) with
       | .ok _ => (.ok 2, [(2, t1 - t0)])
       | .error e => (.error e, [(2, t1 - t0)])) := by
  have hbody : runnerTryBody (μ := μ)
      (runnerSetupHook { fields := [("input_file", { required := true }),
                                    ("max_records", { required := true })] }
        env pe fs ["--input_file", "f.txt"])
      (runnerToParser { fields := [("input_file", { required := true }),
                                   ("max_records", { required := true })] } env none)
      ["--input_file", "f.txt"] pe ["input_file", "max_records"]
      mkModel validateModel prologueHandler runnerFunc = .error (.failedExecution 2) := by
    simp [runnerTryBody, runnerPureDict, runnerSetupHook, nullSetupHook, runnerToParser,
      pydanticClassToParser, addPydanticClassToParser, addFieldsToParser,
      addPydanticFieldToParser, getCliConfigFromModel, parserAddHelp,
      parseArgsModel, parseKnownArgsModel, consumeTokens, findFlat, findFlatAux,
      flattenSpecs, groupConflict, convertValue, checkChoices, optionLike,
      endLoop, checkGroupsRequired, assembleNs, isEagerAction, Bind.bind, Except.bind]
  simp only [runnerWithArgs, pyRunner, List.map_cons, List.map_nil] at *
  rw [hbody]
  cases hep : epilogueHandler 2 (t1 - t0) <;> simp [catchExit, Exc.isCatchable,
    defaultExceptionHandler, getErrorExitCode, hep]

/-- Counterexample for C2: with a required `input_file` field, the argv
`["--input_file", "--help"]` does contain `--help`, but argparse needs a
value for `--input_file` and will not consume the option-like `--help`
token, so parsing fails (`expected one argument`) before the eager help
action runs: the invocation exits with code 2, not 0. -/
theorem helpAfterValueFlag_cx :
    (runnerWithArgs (μ := List (String × PyVal))
        { fields := [("input_file", { required := true })] }
        (fun _ => none) (fun _ => false) (fun _ => none) none
        (fun d => .ok d) (fun _ => .ok ()) (fun _ => .ok ()) (fun _ => .ok 0)
        defaultExceptionHandler (fun _ _ => .ok ()) 0 0 ["--input_file", "--help"]).1
      = .ok 2 ∧ (2 : Int) ≠ 0 := by
  refine ⟨?_, by decide⟩
  simp [runnerWithArgs, pyRunner, runnerTryBody, runnerPureDict, runnerSetupHook,
    nullSetupHook, runnerToParser, pydanticClassToParser, addPydanticClassToParser,
    addFieldsToParser, addPydanticFieldToParser, getCliConfigFromModel, parserAddHelp,
    parseArgsModel, parseKnownArgsModel, consumeTokens, findFlat, findFlatAux,
    flattenSpecs, groupConflict, convertValue, checkChoices, optionLike, endLoop,
    checkGroupsRequired, assembleNs, isEagerAction, catchExit, Exc.isCatchable,
    defaultExceptionHandler, getErrorExitCode, Bind.bind, Except.bind]

/-- C2 (amended): whenever argv processing raises the terminal eager
signal — as the eager help/version actions do when their flag is reached
before any parse error, e.g. as the first token — the orchestrator maps
it to exit code 0 separately from the exception handler, the model is
never constructed and the handler never invoked (the outcome does not
depend on the constructor, validator, prologue, handler or exception
handler), and the epilogue still runs with exit code 0. -/
theorem eagerSignalYieldsZero {μ : Type} (setupHook : Except Exc (List (String × PyVal)))
    (toParser : List (String × PyVal) → Except Exc ArgParser)
    (args : List String) (pe : String → Bool) (pureKeys : List String)
    (mkModel : List (String × PyVal) → Except Exc μ)
    (validateModel : μ → Except Exc Unit) (prologueHandler : μ → Except Exc Unit)
    (runnerFunc : μ → Except Exc Int) (exceptionHandler : Exc → Int)
    (epilogueHandler : Int → Nat → Except Exc Unit) (t0 t1 : Nat)
    (h : runnerPureDict setupHook toParser args pe pureKeys = .error .terminalEager) :
    pyRunner setupHook toParser args pe pureKeys mkModel validateModel prologueHandler
      runnerFunc exceptionHandler epilogueHandler t0 t1 =
      (match epilogueHandler 0 (t1 - t0) with
       | .ok _ => (.ok 0, [(0, t1 - t0)])
       | .error e => (.error e, [(0, t1 - t0)])) ∧
    (∀ (rest : List String) (pe2 : String → Bool) (env : String → Option String),
      (do
        let p ← pydanticClassToParser { fields := [("input_file", { required := true })] }
          env (some "0.1.0") []
        parseArgsModel pe2 p ("--help" :: rest)) = .error .terminalEager ∧
      (do
        let p ← pydanticClassToParser { fields := [("input_file", { required := true })] }
          env (some "0.1.0") []
        parseArgsModel pe2 p ("--version" :: rest)) = .error .terminalEager) := by
  constructor
  · have hb : runnerTryBody setupHook toParser args pe pureKeys mkModel validateModel
        prologueHandler runnerFunc = .error .terminalEager := by
      simp [runnerTryBody, h, Bind.bind, Except.bind]
    cases hep : epilogueHandler 0 (t1 - t0) <;> simp [pyRunner, hb, catchExit, hep]
  · intro rest pe2 env
    constructor <;>
      simp [pydanticClassToParser, addPydanticClassToParser, addFieldsToParser,
        addPydanticFieldToParser, getCliConfigFromModel, parserAddHelp, parserAddVersion,
        parseArgsModel, parseKnownArgsModel, consumeTokens, findFlat, findFlatAux,
        flattenSpecs, isEagerAction, Bind.bind, Except.bind]

/-- Witness for the amended C2: a `--help`-only argv against a parser
that registers the eager help action. -/
theorem eagerSignalYieldsZero_witness :
    pyRunner (μ := List (String × PyVal)) (.ok []) (fun _ => .ok (parserAddHelp []))
      ["--help"] (fun _ => false) [] (fun d => .ok d) (fun _ => .ok ()) (fun _ => .ok ())
      (fun _ => .ok 0) defaultExceptionHandler (fun _ _ => .ok ()) 1 4 =
      (match (fun (_ : Int) (_ : Nat) => (.ok () : Except Exc Unit)) 0 (4 - 1) with
       | .ok _ => (.ok 0, [(0, 4 - 1)])
       | .error e => (.error e, [(0, 4 - 1)])) ∧
    (∀ (rest : List String) (pe2 : String → Bool) (env : String → Option String),
      (do
        let p ← pydanticClassToParser { fields := [("input_file", { required := true })] }
          env (some "0.1.0") []
        parseArgsModel pe2 p ("--help" :: rest)) = .error .terminalEager ∧
      (do
        let p ← pydanticClassToParser { fields := [("input_file", { required := true })] }
          env (some "0.1.0") []
        parseArgsModel pe2 p ("--version" :: rest)) = .error .terminalEager) :=
  eagerSignalYieldsZero (μ := List (String × PyVal)) (.ok []) (fun _ => .ok (parserAddHelp []))
    ["--help"] (fun _ => false) [] (fun d => .ok d) (fun _ => .ok ()) (fun _ => .ok ())
    (fun _ => .ok 0) defaultExceptionHandler (fun _ _ => .ok ()) 1 4
    (by
      simp [runnerPureDict, parserAddHelp, parseArgsModel, parseKnownArgsModel,
        consumeTokens, findFlat, findFlatAux, flattenSpecs, isEagerAction,
        Bind.bind, Except.bind])

/-- C1: override precedence.  For a JSON-config-enabled schema field with
declared default D, JSON-file override E and explicit command-line value
C, the constructor receives C; with only D and E it receives E.
Symmetrically for the JSON-config path itself: the environment variable
overrides the schema-declared default path
(`os.environ.get(env_var, json_config_path)` in
`_get_cli_config_from_model`), and an explicit `--json-config` flag
overrides the resolved default in the override-resolution parse. -/
theorem overridePrecedence (cls : ModelClass) (e : String) (c : CliConfig) (P0 : String)
    (f : String) (D E : PyVal) (C P : String) (pe : String → Bool)
    (fs : String → Option (List (String × PyVal)))
    (hd : c.jsonConfigPath = some P0) (hpe0 : pe P0 = true)
    (h1 : "--" ++ f ≠ "--json-config") (h2 : f ≠ "json_config")
    (hC : optionLike C = false) (hC4 : C ≠ "--json-config")
    (hP : optionLike P = false) (hpe : pe P = true)
    (hfs : fs P = some [(f, E)]) (hE : E ≠ .undef) :
    (getCliConfigFromModel cls
      (fun k => if k = cls.config.CLI_JSON_CONFIG_ENV_VAR.getD "PCLI_JSON_CONFIG"
                then some e else none)).jsonConfigPath = some e ∧
    (getCliConfigFromModel cls (fun _ => none)).jsonConfigPath
      = cls.config.CLI_JSON_CONFIG_PATH.getD none ∧
    setupHookToLoadJson pe fs ["--" ++ c.jsonConfigKey, P] c = loadJsonFile fs P ∧
    setupHookToLoadJson pe fs [] c = loadJsonFile fs P0 ∧
    runnerWithArgsPureDict
      { fields := [(f, { required := false, default := D })],
        config := { CLI_JSON_ENABLE := some true } }
      (fun _ => none) pe fs none ["--json-config", P, "--" ++ f, C] = .ok [(f, .str C)] ∧
    runnerWithArgsPureDict
      { fields := [(f, { required := false, default := D })],
        config := { CLI_JSON_ENABLE := some true } }
      (fun _ => none) pe fs none ["--json-config", P] = .ok [(f, E)] := by
  refine ⟨by simp [getCliConfigFromModel], by simp [getCliConfigFromModel], ?_, ?_, ?_, ?_⟩
  · simp [setupHookToLoadJson, createParserWithConfigJsonFileArg, parserAddArgJsonFile,
      parseKnownArgsModel, consumeTokens, findFlat, findFlatAux, flattenSpecs, groupConflict,
      convertValue, applyValidator, checkChoices, endLoop, checkGroupsRequired, assembleNs,
      isEagerAction, List.lookup, jsonConfigKeySanitized, Bind.bind, Except.bind, hP, hpe]
  · simp [setupHookToLoadJson, createParserWithConfigJsonFileArg, parserAddArgJsonFile,
      parseKnownArgsModel, consumeTokens, findFlat, findFlatAux, flattenSpecs, groupConflict,
      convertValue, applyValidator, checkChoices, endLoop, checkGroupsRequired, assembleNs,
      isEagerAction, List.lookup, jsonConfigKeySanitized, Bind.bind, Except.bind, hd, hpe0]
  · simp [runnerWithArgsPureDict, runnerPureDict, runnerSetupHook, setupHookToLoadJson,
      createParserWithConfigJsonFileArg, parserAddArgJsonFile, jsonConfigKeySanitized,
      loadJsonFile, runnerToParser, pydanticClassToParser, addPydanticClassToParser,
      addFieldsToParser, addPydanticFieldToParser, getCliConfigFromModel, parserAddHelp,
      parseArgsModel, parseKnownArgsModel, consumeTokens, findFlat, findFlatAux,
      flattenSpecs, groupConflict, convertValue, applyValidator, checkChoices, endLoop,
      checkGroupsRequired, assembleNs, isEagerAction, List.lookup, Bind.bind, Except.bind,
      h1, Ne.symm h1, h2, Ne.symm h2, hC, hC4, Ne.symm hC4, hP, hpe, hfs,
      hE, show (f == "json_config") = false by simp [h2]]
  · simp [runnerWithArgsPureDict, runnerPureDict, runnerSetupHook, setupHookToLoadJson,
      createParserWithConfigJsonFileArg, parserAddArgJsonFile, jsonConfigKeySanitized,
      loadJsonFile, runnerToParser, pydanticClassToParser, addPydanticClassToParser,
      addFieldsToParser, addPydanticFieldToParser, getCliConfigFromModel, parserAddHelp,
      parseArgsModel, parseKnownArgsModel, consumeTokens, findFlat, findFlatAux,
      flattenSpecs, groupConflict, convertValue, applyValidator, checkChoices, endLoop,
      checkGroupsRequired, assembleNs, isEagerAction, List.lookup, Bind.bind, Except.bind,
      h1, Ne.symm h1, h2, Ne.symm h2, hC, hC4, Ne.symm hC4, hP, hpe, hfs,
      hE, show (f == "json_config") = false by simp [h2]]

/-- Witness for C1 at the spec's scenario-D-style inputs: `max_records`
with schema default 10, JSON file value 99, explicit flag value 5. -/
theorem overridePrecedence_witness :
    (getCliConfigFromModel
      { fields := [("max_records", { required := false, default := .int 10 })],
        config := { CLI_JSON_ENABLE := some true } }
      (fun k => if k = (({ CLI_JSON_ENABLE := some true } :
          ModelConfigAttrs).CLI_JSON_CONFIG_ENV_VAR.getD "PCLI_JSON_CONFIG")
                then some "env.json" else none)).jsonConfigPath = some "env.json" ∧
    (getCliConfigFromModel
      { fields := [("max_records", { required := false, default := .int 10 })],
        config := { CLI_JSON_ENABLE := some true } }
      (fun _ => none)).jsonConfigPath
      = (({ CLI_JSON_ENABLE := some true } :
          ModelConfigAttrs).CLI_JSON_CONFIG_PATH.getD none) ∧
    setupHookToLoadJson
      (fun s => s == "cfg.json" || s == "default.json")
      (fun p => if p == "cfg.json" then some [("max_records", .int 99)]
                else if p == "default.json" then some [("max_records", .int 7)] else none)
      ["--" ++ ({ jsonConfigPath := some "default.json",
                  jsonConfigPathValidate := false } : CliConfig).jsonConfigKey, "cfg.json"]
      { jsonConfigPath := some "default.json", jsonConfigPathValidate := false } =
      loadJsonFile
        (fun p => if p == "cfg.json" then some [("max_records", .int 99)]
                  else if p == "default.json" then some [("max_records", .int 7)] else none)
        "cfg.json" ∧
    setupHookToLoadJson
      (fun s => s == "cfg.json" || s == "default.json")
      (fun p => if p == "cfg.json" then some [("max_records", .int 99)]
                else if p == "default.json" then some [("max_records", .int 7)] else none)
      [] { jsonConfigPath := some "default.json", jsonConfigPathValidate := false } =
      loadJsonFile
        (fun p => if p == "cfg.json" then some [("max_records", .int 99)]
                  else if p == "default.json" then some [("max_records", .int 7)] else none)
        "default.json" ∧
    runnerWithArgsPureDict
      { fields := [("max_records", { required := false, default := .int 10 })],
        config := { CLI_JSON_ENABLE := some true } }
      (fun _ => none) (fun s => s == "cfg.json" || s == "default.json")
      (fun p => if p == "cfg.json" then some [("max_records", .int 99)]
                else if p == "default.json" then some [("max_records", .int 7)] else none)
      none ["--json-config", "cfg.json", "--" ++ "max_records", "5"] =
      .ok [("max_records", .str "5")] ∧
    runnerWithArgsPureDict
      { fields := [("max_records", { required := false, default := .int 10 })],
        config := { CLI_JSON_ENABLE := some true } }
      (fun _ => none) (fun s => s == "cfg.json" || s == "default.json")
      (fun p => if p == "cfg.json" then some [("max_records", .int 99)]
                else if p == "default.json" then some [("max_records", .int 7)] else none)
      none ["--json-config", "cfg.json"] = .ok [("max_records", .int 99)] :=
  overridePrecedence
    { fields := [("max_records", { required := false, default := .int 10 })],
      config := { CLI_JSON_ENABLE := some true } }
    "env.json" { jsonConfigPath := some "default.json", jsonConfigPathValidate := false }
    "default.json" "max_records" (.int 10) (.int 99) "5" "cfg.json"
    (fun s => s == "cfg.json" || s == "default.json")
    (fun p => if p == "cfg.json" then some [("max_records", .int 99)]
              else if p == "default.json" then some [("max_records", .int 7)] else none)
    rfl rfl (by decide) (by decide) rfl (by decide) rfl rfl rfl (by decide)
